import Mathlib

/-!
Shallow embedding of `instamatic/cred/ImgConversion.py`.

Conventions of the embedding:
* numpy 2-D integer images are `List (List Int)` (rows of pixel samples);
* Python floats are modelled as exact rationals `ℚ` (the claims under study
  are about the arithmetic formulas, not about IEEE rounding);
* acquisition headers (Python dicts) are association lists `List (String × String)`;
* file-system writes are modelled by returning the `(filename, content)` pairs
  the Python code would write;
* external collaborators that are part of the repository but outside the
  excerpted sources (`apply_flatfield_correction`, `find_beam_center`,
  `apply_stretch_correction`, `write_tiff`, the `XDS_template` text, `math.cos`)
  are taken as explicit function parameters, so every theorem holds for any
  behaviour of those collaborators;
* Python runtime errors that the excerpted code can raise are an explicit
  `PyErr` value in an `Except`.
-/

set_option synthInstance.maxSize 4096
set_option maxRecDepth 8192

/-- A numpy 2-D integer image: a list of rows of pixel samples. -/
abbrev Img := List (List Int)

/-- An acquisition header (Python dict), as an ordered association list. -/
abbrev Hdr := List (String × String)

/-- Python runtime errors that the modelled code can raise. -/
inductive PyErr where
  /-- `AttributeError`: attribute lookup on the instance failed. -/
  | attributeError (name : String)
  /-- `KeyError`: dictionary lookup failed (e.g. the camera-length table). -/
  | keyError (key : String)
  /-- `ZeroDivisionError`: float division by zero. -/
  | zeroDivisionError
  /-- `IOError`/`OSError` raised by a file write; carries the target path. -/
  | ioError (path : String)
deriving DecidableEq, Repr

/-- The state of an `ImgConversion` instance after `__init__` has finished:
one field per instance attribute assigned in the constructor (the flatfield
image and the camera-length table are not kept because no claim reads them
after construction; `mrc_header` is the global constant `mrc_header` below). -/
structure ImgConversion where
  headers : List Hdr
  data : List Img
  pixelsize : ℚ
  physical_pixelsize : ℚ
  wavelength : ℚ
  beam_center : ℚ × ℚ
  distance : ℚ
  osangle : ℚ
  startangle : ℚ
  endangle : ℚ
  rotation_angle : ℚ
  dmax : ℚ
  dmin : ℚ
deriving DecidableEq, Repr

/-- The names of every instance attribute assigned by
`ImgConversion.__init__` (lines 32-56 of the source).  `writeIMG` performs a
dynamic attribute lookup of `"header"` against this set. -/
def instanceAttrs : List String :=
  ["pxd", "flatfield", "mrc_header", "headers", "data",
   "pixelsize", "physical_pixelsize", "wavelength", "beam_center", "distance",
   "osangle", "startangle", "endangle", "rotation_angle", "dmax", "dmin"]

/-- The constructor's drain loop (lines 42-45):
`while len(buffer) != 0: img, h = buffer.pop(0); headers.append(h);
data.append(apply_flatfield_correction(img, flatfield))`.
Returns the accumulated `headers` list, the accumulated `data` list and the
final contents of the caller's buffer.  `ffc` is the external
`apply_flatfield_correction(image, field)`. -/
def drainLoop (ffc : Img → Img → Img) (flatfield : Img) :
    List (Img × Hdr) → List Hdr × List Img × List (Img × Hdr)
  | [] => ([], [], [])
  | (img, h) :: rest =>
      let r := drainLoop ffc flatfield rest
      (h :: r.1, ffc img flatfield :: r.2.1, r.2.2)

/-- `get_average_beam_center` (lines 59-60):
`np.mean([find_beam_center(img, sigma=10) for img in self.data], axis=0)`.
`fbc` is the external `find_beam_center(·, sigma=10)`; `np.mean(..., axis=0)`
over an N×2 array sums each column and divides by N. -/
def get_average_beam_center (fbc : Img → ℚ × ℚ) (data : List Img) : ℚ × ℚ :=
  let centers := data.map fbc
  ((centers.map Prod.fst).sum / centers.length,
   (centers.map Prod.snd).sum / centers.length)

/-- `ImgConversion.__init__` (lines 22-57).  Draining the buffer, the
camera-length → pixel-size lookup `self.pxd[camera_length]` (KeyError when
missing), the fixed constants, the averaged beam center, and the distance
formula `483.89*0.00412/self.pixelsize` (ZeroDivisionError when the pixel
size is zero).  Returns the constructed state together with the final
contents of the caller's buffer. -/
def ImgConversion.init (ffc : Img → Img → Img) (fbc : Img → ℚ × ℚ)
    (flatfield : Img) (pxd : List (ℚ × ℚ)) (buffer : List (Img × Hdr))
    (camera_length osangle startangle endangle rotation_angle : ℚ)
    (resolution_range : ℚ × ℚ) :
    Except PyErr (ImgConversion × List (Img × Hdr)) :=
  let r := drainLoop ffc flatfield buffer
  match pxd.lookup camera_length with
  | none => .error (.keyError (toString camera_length))
  | some pixelsize =>
      if pixelsize = 0 then .error .zeroDivisionError
      else
        .ok ({ headers := r.1
               data := r.2.1
               pixelsize := pixelsize
               physical_pixelsize := 0.055
               wavelength := 0.025080
               beam_center := get_average_beam_center fbc r.2.1
               distance := 483.89 * 0.00412 / pixelsize
               osangle := osangle
               startangle := startangle
               endangle := endangle
               rotation_angle := rotation_angle
               dmax := resolution_range.1
               dmin := resolution_range.2 }, r.2.2)

/-- The per-axis center adjustment of `fixDistortion` (lines 130-142): the
three conditions all test the original coordinate, the increments accumulate
on the copy. -/
def fixCenterAxis (c : ℚ) : ℚ :=
  let c1 := if c > 255 then c + 1 else c
  let c2 := if c > 256 then c1 + 2 else c1
  if c > 257 then c2 + 1 else c2

/-- `fixDistortion` (lines 127-149): adjust each axis of `directXY`, then
call the external `apply_stretch_correction(image, center, azimuth, amplitude)`
with `azimuth = -6.61`, `amplitude = 2.43`. -/
def fixDistortion (asc : Img → ℚ × ℚ → ℚ → ℚ → Img)
    (image : Img) (directXY : ℚ × ℚ) : Img :=
  asc image (fixCenterAxis directXY.1, fixCenterAxis directXY.2) (-6.61) 2.43

/-- The SMV encoder's 516→512 quadrant re-packing (lines 83-89): triggered
exactly when the image height (`len(img)`) is 516; rows 256-259 and columns
256-259 are dropped, the four quadrants are copied into a 512×512 buffer.
For a 516×516 input this list expression produces exactly the numpy result. -/
def repack516 (img : Img) : Img :=
  if img.length = 516 then
    (img.take 256 ++ img.drop 260).map (fun r => r.take 256 ++ r.drop 260)
  else img

/-- Python `"{:05d}".format(j)`: decimal digits left-padded with zeros to
width 5. -/
def pad5 (n : Nat) : String :=
  let s := toString n
  (List.replicate (5 - s.length) '0').asString ++ s

/-- `os.path.join(path, fn)` for the POSIX-style paths used here. -/
def pathJoin (path fn : String) : String := path ++ "/" ++ fn

/-- Python `"{:.2f}".format(x)` / `"%.2f" % x`: the value rounded to the
nearest hundredth, printed with exactly two decimals.  (Ties, where binary
floating point and round-half-up could differ, do not occur in any claim.) -/
def format2 (x : ℚ) : String :=
  let n : ℤ := round (x * 100)
  let sign := if n < 0 then "-" else ""
  let m := n.natAbs
  let frac := m % 100
  sign ++ toString (m / 100) ++ "." ++
    (if frac < 10 then "0" ++ toString frac else toString frac)

/-- A value stored in the SMV text-header dict: Python int, float or str. -/
inductive HVal where
  | int (n : Int)
  | flt (x : ℚ)
  | str (t : String)
deriving DecidableEq, Repr

/-- Python `str(h[k])` for the acquisition-header lookups feeding DATE/TIME.
(A missing key would raise `KeyError`; unreachable here because `writeIMG`
fails earlier, see `writeIMG` below.) -/
def hGetD (h : Hdr) (k : String) : String := ((h.lookup k).getD "")

/-- The ordered SMV/ADSC text header built per frame by `writeIMG`
(lines 91-120), as the ordered list of `(key, value)` insertions into the
`collections.OrderedDict`. -/
def smvHeader (s : ImgConversion) (h : Hdr) : List (String × HVal) :=
  [("HEADER_BYTES", .int 512),
   ("DIM", .int 2),
   ("BYTE_ORDER", .str "little_endian"),
   ("TYPE", .str "unsigned_short"),
   ("SIZE1", .int 512),
   ("SIZE2", .int 512),
   ("PIXEL_SIZE", .flt s.physical_pixelsize),
   ("BIN", .str "1x1"),
   ("BIN_TYPE", .str "HW"),
   ("ADC", .str "fast"),
   ("CREV", .int 1),
   ("BEAMLINE", .str "TIMEPIX_SU"),
   ("DETECTOR_SN", .int 901),
   ("DATE", .str (hGetD h "ImageGetTime")),
   ("TIME", .str (hGetD h "ImageExposureTime")),
   ("DISTANCE", .str (format2 (s.distance * 1.1))),
   ("TWOTHETA", .flt 0),
   ("PHI", .flt s.startangle),
   ("OSC_START", .flt s.startangle),
   ("OSC_RANGE", .flt s.osangle),
   ("WAVELENGTH", .flt s.wavelength),
   ("BEAM_CENTER_X", .str (format2 s.beam_center.1)),
   ("BEAM_CENTER_Y", .str (format2 s.beam_center.2)),
   ("DENZO_X_BEAM", .str (format2 (s.beam_center.1 * s.physical_pixelsize))),
   ("DENZO_Y_BEAM", .str (format2 (s.beam_center.2 * s.physical_pixelsize)))]

/-- `np.ushort(img)`: cast every sample to unsigned 16-bit (wraps mod 2^16). -/
def ushortCast (img : Img) : Img := img.map (fun r => r.map (fun v => v % 65536))

/-- `writeIMG` (lines 71-125).  The loop header
`izip(self.data, self.header)` (line 75) performs an attribute lookup of
`header` on the instance, whose attributes are `instanceAttrs`; if that
lookup resolved, the loop would emit, for the i-th frame (0-based), the file
`path/{i+1:05d}.img` holding the `smvHeader` text header and the u16-cast,
516→512 re-packed image.  The returned value is the list of
`(filename, header, image)` triples written. -/
def writeIMG (s : ImgConversion) (path : String) :
    Except PyErr (List (String × List (String × HVal) × Img)) :=
  if "header" ∈ instanceAttrs then
    .ok ((s.data.zip s.headers).enum.map (fun p =>
      (pathJoin path (pad5 (p.1 + 1) ++ ".img"),
       smvHeader s p.2.2,
       repack516 (ushortCast p.2.1))))
  else .error (.attributeError "header")

/-- Modelled from the spec: `write_tiff` (from `instamatic.formats`, not in
the excerpted sources) writes one file and, per the error-handling design,
a failed write surfaces an I/O error carrying the target path.  `ok fn`
says whether the write of `fn` succeeds. -/
def write_tiff (ok : String → Bool) (fn : String) : Except PyErr String :=
  if ok fn then .ok fn else .error (.ioError fn)

/-- The loop of `writeTiff` (lines 65-68) from loop counter `i` onwards:
each successful iteration leaves the file `path/{i+1:05d}.tiff` with the
frame's image and original header on disk; a failing `write_tiff` aborts
the loop with the error, leaving the earlier files as written. -/
def writeTiffLoop (ok : String → Bool) (path : String) :
    Nat → List (Img × Hdr) → List (String × Img × Hdr) × Option PyErr
  | _, [] => ([], none)
  | i, (img, h) :: rest =>
      let fn := pathJoin path (pad5 (i + 1) ++ ".tiff")
      match write_tiff ok fn with
      | .ok _ =>
          let r := writeTiffLoop ok path (i + 1) rest
          ((fn, img, h) :: r.1, r.2)
      | .error e => ([], some e)

/-- `writeTiff` (lines 62-69): iterate `izip(self.data, self.headers)` with
`enumerate`, writing each frame to its 1-based 5-digit `.tiff` file. -/
def writeTiff (ok : String → Bool) (s : ImgConversion) (path : String) :
    List (String × Img × Hdr) × Option PyErr :=
  writeTiffLoop ok path 0 (s.data.zip s.headers)

/-- `img.astype(np.int16)`: cast every sample to signed 16-bit (wraps). -/
def int16Cast (v : Int) : Int := (v + 32768) % 65536 - 32768

/-- Little-endian byte pair of a signed 16-bit sample, as `tobytes` emits. -/
def int16Bytes (v : Int) : List Nat :=
  let u := ((v % 65536).toNat)
  [u % 256, u / 256]

/-- `img.tobytes()` for an int16 array: row-major little-endian bytes. -/
def imgBytes (img : Img) : List Nat :=
  (img.map (fun r => (r.map int16Bytes).flatten)).flatten

/-- The 1024-byte binary MRC header blob `self.mrc_header` (line 37 of the
source), byte for byte. -/
def mrc_header : List Nat :=
  [4, 2, 0, 0, 4, 2, 0, 0, 1, 0, 0, 0, 1, 0, 0, 0, 0, 0, 0, 0, 0, 0, 0, 0, 0, 0, 0, 0, 4, 2, 0, 0,
   4, 2, 0, 0, 1, 0, 0, 0, 0, 0, 0, 0, 0, 0, 0, 0, 0, 0, 0, 0, 0, 0, 180, 66, 0, 0, 180, 66, 0, 0, 180, 66,
   1, 0, 0, 0, 2, 0, 0, 0, 3, 0, 0, 0, 0, 0, 0, 0, 0, 136, 56, 70, 120, 6, 115, 65, 0, 0, 0, 0, 0, 0, 0, 0,
   0, 0, 0, 0, 0, 0, 0, 0, 0, 0, 0, 0, 0, 0, 0, 0, 0, 0, 0, 0, 0, 0, 0, 0, 0, 0, 0, 0, 0, 0, 0, 0,
   0, 0, 0, 0, 0, 0, 0, 0, 0, 0, 0, 0, 0, 0, 0, 0, 0, 0, 0, 0, 0, 0, 0, 0, 0, 0, 0, 0, 0, 0, 0, 0,
   0, 0, 0, 0, 0, 0, 0, 0, 0, 0, 0, 0, 0, 0, 0, 0, 0, 0, 0, 0, 0, 0, 0, 0, 0, 0, 0, 0, 0, 0, 0, 0,
   0, 0, 0, 0, 0, 0, 0, 0, 0, 0, 0, 0, 0, 0, 0, 0, 77, 65, 80, 32, 68, 65, 0, 0, 0, 0, 0, 0, 1, 0, 0, 0,
   97, 97, 97, 97, 97, 97, 97, 97, 97, 97, 97, 97, 97, 97, 97, 97, 97, 97, 97, 97, 97, 97, 44, 97, 97, 97, 97, 97, 97, 97, 97, 97,
   97, 97, 0, 0, 0, 0, 0, 0, 0, 0, 0, 0, 0, 0, 0, 0, 0, 0, 0, 0, 0, 0, 0, 0, 0, 0, 0, 0, 0, 0, 0, 0,
   0, 0, 0, 0, 0, 0, 0, 0, 0, 0, 0, 0, 0, 0, 0, 0, 0, 0, 0, 0, 0, 0, 0, 0, 0, 0, 0, 0, 0, 0, 0, 0,
   0, 0, 0, 0, 0, 0, 0, 0, 0, 0, 0, 0, 0, 0, 0, 0, 0, 0, 0, 0, 0, 0, 0, 0, 0, 0, 0, 0, 0, 0, 0, 0,
   0, 0, 0, 0, 0, 0, 0, 0, 0, 0, 0, 0, 0, 0, 0, 0, 0, 0, 0, 0, 0, 0, 0, 0, 0, 0, 0, 0, 0, 0, 0, 0,
   0, 0, 0, 0, 0, 0, 0, 0, 0, 0, 0, 0, 0, 0, 0, 0, 0, 0, 0, 0, 0, 0, 0, 0, 0, 0, 0, 0, 0, 0, 0, 0,
   0, 0, 0, 0, 0, 0, 0, 0, 0, 0, 0, 0, 0, 0, 0, 0, 0, 0, 0, 0, 0, 0, 0, 0, 0, 0, 0, 0, 0, 0, 0, 0,
   0, 0, 0, 0, 0, 0, 0, 0, 0, 0, 0, 0, 0, 0, 0, 0, 0, 0, 0, 0, 0, 0, 0, 0, 0, 0, 0, 0, 0, 0, 0, 0,
   0, 0, 0, 0, 0, 0, 0, 0, 0, 0, 0, 0, 0, 0, 0, 0, 0, 0, 0, 0, 0, 0, 0, 0, 0, 0, 0, 0, 0, 0, 0, 0,
   0, 0, 0, 0, 0, 0, 0, 0, 0, 0, 0, 0, 0, 0, 0, 0, 0, 0, 0, 0, 0, 0, 0, 0, 0, 0, 0, 0, 0, 0, 0, 0,
   0, 0, 0, 0, 0, 0, 0, 0, 0, 0, 0, 0, 0, 0, 0, 0, 0, 0, 0, 0, 0, 0, 0, 0, 0, 0, 0, 0, 0, 0, 0, 0,
   0, 0, 0, 0, 0, 0, 0, 0, 0, 0, 0, 0, 0, 0, 0, 0, 0, 0, 0, 0, 0, 0, 0, 0, 0, 0, 0, 0, 0, 0, 0, 0,
   0, 0, 0, 0, 0, 0, 0, 0, 0, 0, 0, 0, 0, 0, 0, 0, 0, 0, 0, 0, 0, 0, 0, 0, 0, 0, 0, 0, 0, 0, 0, 0,
   0, 0, 0, 0, 0, 0, 0, 0, 0, 0, 0, 0, 0, 0, 0, 0, 0, 0, 0, 0, 0, 0, 0, 0, 0, 0, 0, 0, 0, 0, 0, 0,
   0, 0, 0, 0, 0, 0, 0, 0, 0, 0, 0, 0, 0, 0, 0, 0, 0, 0, 0, 0, 0, 0, 0, 0, 0, 0, 0, 0, 0, 0, 0, 0,
   0, 0, 0, 0, 0, 0, 0, 0, 0, 0, 0, 0, 0, 0, 0, 0, 0, 0, 0, 0, 0, 0, 0, 0, 0, 0, 0, 0, 0, 0, 0, 0,
   0, 0, 0, 0, 0, 0, 0, 0, 0, 0, 0, 0, 0, 0, 0, 0, 0, 0, 0, 0, 0, 0, 0, 0, 0, 0, 0, 0, 0, 0, 0, 0,
   0, 0, 0, 0, 0, 0, 0, 0, 0, 0, 0, 0, 0, 0, 0, 0, 0, 0, 0, 0, 0, 0, 0, 0, 0, 0, 0, 0, 0, 0, 0, 0,
   0, 0, 0, 0, 0, 0, 0, 0, 0, 0, 0, 0, 0, 0, 0, 0, 0, 0, 0, 0, 0, 0, 0, 0, 0, 0, 0, 0, 0, 0, 0, 0,
   0, 0, 0, 0, 0, 0, 0, 0, 0, 0, 0, 0, 0, 0, 0, 0, 0, 0, 0, 0, 0, 0, 0, 0, 0, 0, 0, 0, 0, 0, 0, 0,
   0, 0, 0, 0, 0, 0, 0, 0, 0, 0, 0, 0, 0, 0, 0, 0, 0, 0, 0, 0, 0, 0, 0, 0, 0, 0, 0, 0, 0, 0, 0, 0,
   0, 0, 0, 0, 0, 0, 0, 0, 0, 0, 0, 0, 0, 0, 0, 0, 0, 0, 0, 0, 0, 0, 0, 0, 0, 0, 0, 0, 0, 0, 0, 0,
   0, 0, 0, 0, 0, 0, 0, 0, 0, 0, 0, 0, 0, 0, 0, 0, 0, 0, 0, 0, 0, 0, 0, 0, 0, 0, 0, 0, 0, 0, 0, 0,
   0, 0, 0, 0, 0, 0, 0, 0, 0, 0, 0, 0, 0, 0, 0, 0, 0, 0, 0, 0, 0, 0, 0, 0, 0, 0, 0, 0, 0, 0, 0, 0,
   0, 0, 0, 0, 0, 0, 0, 0, 0, 0, 0, 0, 0, 0, 0, 0, 0, 0, 0, 0, 0, 0, 0, 0, 0, 0, 0, 0, 0, 0, 0, 0]

/-- `MRCCreator` (lines 151-165): for the i-th frame (0-based), cast the
image to int16, reverse the row order (`[::-1,:]`), apply `fixDistortion`
with the global `self.beam_center`, and write the file
`path/{i+1:05d}.img` holding the 1024-byte header followed by the raw
row-major pixel bytes.  `asc` is the external stretch correction. -/
def MRCCreator (asc : Img → ℚ × ℚ → ℚ → ℚ → Img)
    (s : ImgConversion) (path : String) : List (String × List Nat) :=
  s.data.enum.map (fun p =>
    let img := fixDistortion asc ((p.2.map (fun r => r.map int16Cast)).reverse)
      s.beam_center
    (pathJoin path (pad5 (p.1 + 1) ++ ".img"), mrc_header ++ imgBytes img))

/-- One line of the `1.ed3d` text file.  Rendering to bytes is injective on
these constructors (each corresponds to one fixed `format` call), so equal
line lists mean byte-identical files. -/
inductive Ed3dLine where
  /-- `"KEY    {value}\n"` with a numeric value. -/
  | kv (key : String) (v : ℚ)
  /-- A literal key/value line written with a fixed text value. -/
  | kvs (key : String) (v : String)
  /-- The empty line. -/
  | blank
  /-- The `FILELIST` line. -/
  | filelist
  /-- `"FILE {fn}    {ang}    0    {ang}\n"`. -/
  | file (fn : String) (ang : ℚ) (beamtilt : ℚ) (ang2 : ℚ)
  /-- The final `ENDFILELIST` (no trailing newline). -/
  | endfilelist
deriving DecidableEq, Repr

/-- `ED3DCreator` (lines 167-190): the single file `path/1.ed3d` with the
fixed key lines, a blank line, `FILELIST`, one `FILE` line per frame with
angle `self.startangle + self.osangle * i` written in both angle slots, and
`ENDFILELIST`.  Returns the filename and the ordered lines. -/
def ED3DCreator (s : ImgConversion) (path : String) (rotation_angle : ℚ) :
    String × List Ed3dLine :=
  (pathJoin path "1.ed3d",
   [Ed3dLine.kv "WAVELENGTH" s.wavelength,
    Ed3dLine.kv "ROTATIONAXIS" rotation_angle,
    Ed3dLine.kv "CCDPIXELSIZE" s.pixelsize,
    Ed3dLine.kv "GONIOTILTSTEP" s.osangle,
    Ed3dLine.kvs "BEAMTILTSTEP" "0",
    Ed3dLine.kvs "BEAMTILTRANGE" "0.000",
    Ed3dLine.kvs "STRETCHINGMP" "0.0",
    Ed3dLine.kvs "STRETCHINGAZIMUTH" "0.0",
    Ed3dLine.blank,
    Ed3dLine.filelist]
   ++ (List.range s.data.length).map (fun i =>
        Ed3dLine.file (pathJoin path (pad5 (i + 1) ++ ".img"))
          (s.startangle + s.osangle * i) 0 (s.startangle + s.osangle * i))
   ++ [Ed3dLine.endfilelist])

/-- The angles carried by the `FILE` lines of an ed3d line list, in order. -/
def fileAngles (lines : List Ed3dLine) : List ℚ :=
  lines.filterMap (fun l => match l with
    | .file _ ang _ _ => some ang
    | _ => none)

/-- The exact float value of `np.pi`. -/
def np_pi : ℚ := 884279719003555 / 281474976710656

/-- The substitution values `XDSINPCreator` (lines 192-214) feeds into the
fixed external `XDS_template` text; the written `XDS.INP` is a fixed
function of these fourteen values, so equal records mean byte-identical
files.  `cosQ` is the external `math.cos`. -/
structure XDSParams where
  data_begin : Int
  data_end : Int
  starting_angle : ℚ
  wavelength : ℚ
  dmin : ℚ
  dmax : ℚ
  origin_x : ℚ
  origin_y : ℚ
  sign : String
  detdist : ℚ
  osangle : ℚ
  rot_x : ℚ
  rot_y : ℚ
  rot_z : ℚ
deriving DecidableEq, Repr

/-- `XDSINPCreator` (lines 192-214): fill the template from the instance
state and the `rotation_angle` argument, the rotation axis being
`(cos(a), cos(a + pi/2), 0)`. -/
def XDSINPCreator (cosQ : ℚ → ℚ) (s : ImgConversion) (rotation_angle : ℚ) :
    XDSParams :=
  { data_begin := 1
    data_end := s.data.length
    starting_angle := s.startangle
    wavelength := s.wavelength
    dmin := s.dmin
    dmax := s.dmax
    origin_x := s.beam_center.1
    origin_y := s.beam_center.2
    sign := "+"
    detdist := s.distance
    osangle := s.osangle
    rot_x := cosQ rotation_angle
    rot_y := cosQ (rotation_angle + np_pi / 2)
    rot_z := 0 }

/-- Decidable equality for `Except`, needed to evaluate the modelled
constructor on concrete inputs. -/
instance exceptDecEq {e a : Type} [DecidableEq e] [DecidableEq a] :
    DecidableEq (Except e a) := fun x y =>
  match x, y with
  | .error u, .error v =>
      if h : u = v then .isTrue (congrArg Except.error h)
      else .isFalse (fun hh => h (Except.error.inj hh))
  | .error _, .ok _ => .isFalse (fun hh => Except.noConfusion hh)
  | .ok _, .error _ => .isFalse (fun hh => Except.noConfusion hh)
  | .ok u, .ok v =>
      if h : u = v then .isTrue (congrArg Except.ok h)
      else .isFalse (fun hh => h (Except.ok.inj hh))

/-- The component-wise arithmetic mean of a list of (x, y) pairs, written
the way the specification describes `beam_center`. -/
def meanXY (l : List (ℚ × ℚ)) : ℚ × ℚ :=
  ((l.map Prod.fst).sum / l.length, (l.map Prod.snd).sum / l.length)

lemma drainLoop_eq (ffc : Img → Img → Img) (ff : Img) (buffer : List (Img × Hdr)) :
    drainLoop ffc ff buffer =
      (buffer.map Prod.snd, buffer.map (fun p => ffc p.1 ff), []) := by
  induction buffer with
  | nil => rfl
  | cons p rest ih => simp [drainLoop, ih]

lemma init_ok_elim (ffc : Img → Img → Img) (fbc : Img → ℚ × ℚ) (ff : Img)
    (pxd : List (ℚ × ℚ)) (buffer : List (Img × Hdr))
    (cl os sa ea ra : ℚ) (rr : ℚ × ℚ) (s : ImgConversion)
    (rem : List (Img × Hdr))
    (h : ImgConversion.init ffc fbc ff pxd buffer cl os sa ea ra rr = .ok (s, rem)) :
    s.headers = buffer.map Prod.snd ∧
    s.data = buffer.map (fun p => ffc p.1 ff) ∧
    pxd.lookup cl = some s.pixelsize ∧ s.pixelsize ≠ 0 ∧
    s.physical_pixelsize = 0.055 ∧
    s.wavelength = 0.025080 ∧
    s.beam_center = get_average_beam_center fbc s.data ∧
    s.distance = 483.89 * 0.00412 / s.pixelsize ∧
    s.osangle = os ∧ s.startangle = sa ∧ s.endangle = ea ∧
    s.rotation_angle = ra ∧ s.dmax = rr.1 ∧ s.dmin = rr.2 ∧
    rem = [] := by
  simp only [ImgConversion.init, drainLoop_eq] at h
  cases hl : pxd.lookup cl with
  | none => rw [hl] at h; simp at h
  | some p =>
      rw [hl] at h
      by_cases hp : p = 0
      · simp [hp] at h
      · simp only [if_neg hp, Except.ok.injEq, Prod.mk.injEq] at h
        obtain ⟨h1, h2⟩ := h
        subst h1
        refine ⟨rfl, rfl, by simpa using hl, by simpa using hp, rfl, rfl, rfl, rfl,
          rfl, rfl, rfl, rfl, rfl, rfl, h2.symm⟩

/-- C1: the claim says `writeIMG(path)` writes one SMV file per frame with
the fixed 25-key header.  The code instead evaluates
`izip(self.data, self.header)` and the instance has no attribute `header`
(the constructor assigns `headers`), so `writeIMG` raises `AttributeError`
for every instance and every path before writing anything. -/
theorem writeIMG_raises_attributeError (s : ImgConversion) (path : String) :
    writeIMG s path = .error (.attributeError "header") := by
  have hmem : "header" ∉ instanceAttrs := by decide
  simp [writeIMG, hmem]

/-- C4: `fixDistortion` adjusts each axis of the supplied center
independently and cumulatively (+1 above 255, +2 more above 256, +1 more
above 257); a center of (100, 120) is passed to the stretch transform
unchanged; the stretch transform is always invoked with azimuth -6.61 and
amplitude 2.43. -/
theorem fixDistortion_center_adjust (asc : Img → ℚ × ℚ → ℚ → ℚ → Img)
    (image : Img) (x y : ℚ) :
    fixDistortion asc image (x, y) =
      asc image (fixCenterAxis x, fixCenterAxis y) (-6.61) 2.43 ∧
    fixCenterAxis x = x + (if x > 255 then 1 else 0) + (if x > 256 then 2 else 0)
      + (if x > 257 then 1 else 0) ∧
    fixDistortion asc image (100, 120) = asc image (100, 120) (-6.61) 2.43 := by
  refine ⟨rfl, ?_, ?_⟩
  · unfold fixCenterAxis
    split_ifs <;> ring
  · have h1 : fixCenterAxis 100 = 100 := by norm_num [fixCenterAxis]
    have h2 : fixCenterAxis 120 = 120 := by norm_num [fixCenterAxis]
    simp [fixDistortion, h1, h2]

lemma repack516_of_ne (img : Img) (h : img.length ≠ 516) : repack516 img = img := by
  simp [repack516, h]

lemma repack516_length (img : Img) (h : img.length = 516) :
    (repack516 img).length = 512 := by
  simp [repack516, h]

/-- C7: the 516→512 re-packing fires exactly when the image height is 516;
on such input its output has height 512, so applying the re-packing step to
its own output is the identity. -/
theorem repack516_idempotent (img : Img) :
    (img.length ≠ 516 → repack516 img = img) ∧
    (img.length = 516 →
      (repack516 img).length = 512 ∧
      repack516 (repack516 img) = repack516 img) := by
  refine ⟨repack516_of_ne img, fun h => ⟨repack516_length img h, ?_⟩⟩
  apply repack516_of_ne
  rw [repack516_length img h]
  omega

/-- Witness for C7 at a concrete 512-row and a concrete 516-row image. -/
theorem repack516_idempotent_witness :
    repack516 (List.replicate 512 ([0] : List Int)) = List.replicate 512 [0] ∧
    (repack516 (List.replicate 516 ([0] : List Int))).length = 512 ∧
    repack516 (repack516 (List.replicate 516 ([0] : List Int))) =
      repack516 (List.replicate 516 [0]) :=
  ⟨(repack516_idempotent (List.replicate 512 [0])).1
     (by simp only [List.length_replicate]; omega),
   (repack516_idempotent (List.replicate 516 [0])).2
     (by simp only [List.length_replicate])⟩

/-- C2: after construction the data sequence has exactly one entry per
buffered pair, entry i being the flatfield-corrected image of the i-th pair
in acquisition order, headers preserved index-wise, and the caller's buffer
is left empty (drained by the pop loop, not copied). -/
theorem init_drains_buffer (ffc : Img → Img → Img) (fbc : Img → ℚ × ℚ)
    (ff : Img) (pxd : List (ℚ × ℚ)) (buffer : List (Img × Hdr))
    (cl os sa ea ra : ℚ) (rr : ℚ × ℚ) (s : ImgConversion)
    (rem : List (Img × Hdr))
    (h : ImgConversion.init ffc fbc ff pxd buffer cl os sa ea ra rr = .ok (s, rem)) :
    s.data.length = buffer.length ∧
    s.data = buffer.map (fun p => ffc p.1 ff) ∧
    s.headers = buffer.map Prod.snd ∧
    rem = [] := by
  obtain ⟨hh, hd, -, -, -, -, -, -, -, -, -, -, -, -, hrem⟩ :=
    init_ok_elim ffc fbc ff pxd buffer cl os sa ea ra rr s rem h
  exact ⟨by rw [hd]; simp, hd, hh, hrem⟩

/-- A concrete flatfield correction for witnesses: add one to every sample. -/
def wFfc : Img → Img → Img := fun img _ => img.map (fun r => r.map (fun v => v + 1))

/-- A concrete beam-center detector for witnesses. -/
def wFbc : Img → ℚ × ℚ := fun img => ((img.flatten.sum : ℤ), (img.length : ℚ))

/-- A concrete two-frame acquisition buffer for witnesses. -/
def wBuf : List (Img × Hdr) := [([[1]], [("k", "v")]), ([[2]], [])]

/-- `wBuf` with the frame order swapped. -/
def wBufRev : List (Img × Hdr) := [([[2]], []), ([[1]], [("k", "v")])]

/-- A concrete camera-length table for witnesses: camera length 25 ↦ pixel
size 2. -/
def wPxd : List (ℚ × ℚ) := [(25, 2)]

/-- The state `ImgConversion.init wFfc wFbc [] wPxd wBuf 25 0.5 10 11.5 7
(20, 0.8)` constructs. -/
def wState : ImgConversion :=
  { headers := [[("k", "v")], []]
    data := [[[2]], [[3]]]
    pixelsize := 2
    physical_pixelsize := 0.055
    wavelength := 0.025080
    beam_center := (5/2, 1)
    distance := 0.9968134
    osangle := 0.5
    startangle := 10
    endangle := 11.5
    rotation_angle := 7
    dmax := 20
    dmin := 0.8 }

/-- The state constructed from the swapped buffer `wBufRev`. -/
def wStateRev : ImgConversion :=
  { wState with headers := [[], [("k", "v")]], data := [[[3]], [[2]]] }

/-- Evaluation of the modelled constructor on the concrete witness inputs. -/
lemma wInit_eq :
    ImgConversion.init wFfc wFbc [] wPxd wBuf 25 0.5 10 11.5 7 (20, 0.8) =
      .ok (wState, []) := by
  simp [ImgConversion.init, drainLoop_eq, wBuf, wPxd, wFfc, wFbc, wState,
    get_average_beam_center, List.lookup]
  norm_num

/-- Evaluation of the modelled constructor on the swapped witness buffer. -/
lemma wInitRev_eq :
    ImgConversion.init wFfc wFbc [] wPxd wBufRev 25 0.5 10 11.5 7 (20, 0.8) =
      .ok (wStateRev, []) := by
  simp [ImgConversion.init, drainLoop_eq, wBufRev, wPxd, wFfc, wFbc, wState,
    wStateRev, get_average_beam_center, List.lookup]
  norm_num

/-- Witness for C2 at the concrete two-frame buffer. -/
theorem init_drains_buffer_witness :
    wState.data.length = wBuf.length ∧
    wState.data = wBuf.map (fun p => wFfc p.1 []) ∧
    wState.headers = wBuf.map Prod.snd ∧
    ([] : List (Img × Hdr)) = [] :=
  init_drains_buffer wFfc wFbc [] wPxd wBuf 25 0.5 10 11.5 7 (20, 0.8)
    wState [] wInit_eq

/-- C3: for a non-empty buffer the constructed `beam_center` is the
component-wise arithmetic mean of the per-frame detected centers, and a
construction from any permutation of the frames yields the same center. -/
theorem beam_center_mean_perm_invariant (ffc : Img → Img → Img)
    (fbc : Img → ℚ × ℚ) (ff : Img) (pxd : List (ℚ × ℚ))
    (buffer buffer' : List (Img × Hdr)) (cl os sa ea ra : ℚ) (rr : ℚ × ℚ)
    (s s' : ImgConversion) (rem rem' : List (Img × Hdr))
    (hne : buffer ≠ [])
    (hperm : List.Perm buffer buffer')
    (h : ImgConversion.init ffc fbc ff pxd buffer cl os sa ea ra rr = .ok (s, rem))
    (h' : ImgConversion.init ffc fbc ff pxd buffer' cl os sa ea ra rr = .ok (s', rem')) :
    s.beam_center = meanXY (s.data.map fbc) ∧
    s'.beam_center = s.beam_center := by
  obtain ⟨-, hd, -, -, -, -, hbc, -⟩ :=
    init_ok_elim ffc fbc ff pxd buffer cl os sa ea ra rr s rem h
  obtain ⟨-, hd', -, -, -, -, hbc', -⟩ :=
    init_ok_elim ffc fbc ff pxd buffer' cl os sa ea ra rr s' rem' h'
  have hp : List.Perm (s.data.map fbc) (s'.data.map fbc) := by
    rw [hd, hd']
    exact ((hperm.map _).map _)
  constructor
  · rw [hbc]; rfl
  · rw [hbc, hbc']
    simp only [get_average_beam_center]
    rw [(hp.map Prod.fst).sum_eq, (hp.map Prod.snd).sum_eq, hp.length_eq]

/-- Witness for C3 at the concrete buffer and its swapped copy. -/
theorem beam_center_mean_perm_invariant_witness :
    wState.beam_center = meanXY (wState.data.map wFbc) ∧
    wStateRev.beam_center = wState.beam_center :=
  beam_center_mean_perm_invariant wFfc wFbc [] wPxd wBuf wBufRev 25 0.5 10 11.5 7
    (20, 0.8) wState wStateRev [] [] (by decide) (by decide) wInit_eq wInitRev_eq

/-- A 3-frame state with `osangle = 0.5` and `startangle = 10`, for the
end-to-end ED3D scenario. -/
def ed3dExState : ImgConversion :=
  { wState with headers := [[], [], []], data := [[[0]], [[0]], [[0]]] }

/-- The FILE-line angles of a mapped frame list, by induction on the list. -/
lemma fileAngles_fileList (path : String) (sa os : ℚ) (l : List ℕ) :
    fileAngles (l.map (fun i => Ed3dLine.file (pathJoin path (pad5 (i + 1) ++ ".img"))
      (sa + os * i) 0 (sa + os * i))) =
      l.map (fun i : ℕ => sa + os * (i : ℚ)) := by
  induction l with
  | nil => rfl
  | cons a t ih => simpa [fileAngles, List.filterMap_cons] using ih

/-- `fileAngles` distributes over list concatenation. -/
lemma fileAngles_append (a b : List Ed3dLine) :
    fileAngles (a ++ b) = fileAngles a ++ fileAngles b := by
  simp [fileAngles]

/-- C5: the `FILE` line for 0-based frame i of the single `1.ed3d` file
carries the angle `startangle + osangle * i`, for i = 0..N-1; the file ends
with `ENDFILELIST`; with 3 frames, `osangle = 0.5` and `startangle = 10.0`
the listed angles are 10.0, 10.5, 11.0. -/
theorem ed3d_file_angles (s : ImgConversion) (path : String) (r : ℚ) :
    (ED3DCreator s path r).1 = pathJoin path "1.ed3d" ∧
    fileAngles (ED3DCreator s path r).2 =
      (List.range s.data.length).map
        (fun i : ℕ => s.startangle + s.osangle * (i : ℚ)) ∧
    (ED3DCreator s path r).2.getLast? = some Ed3dLine.endfilelist ∧
    fileAngles (ED3DCreator ed3dExState "p" 0).2 = [10, 10.5, 11] := by
  refine ⟨rfl, ?_, ?_, ?_⟩
  · simp only [ED3DCreator, fileAngles_append, fileAngles_fileList]
    simp [fileAngles]
  · simp only [ED3DCreator]
    rw [List.getLast?_concat]
  · have h3 : ed3dExState.data.length = 3 := rfl
    simp only [ED3DCreator, fileAngles_append, fileAngles_fileList, h3]
    norm_num [fileAngles, List.range_succ, ed3dExState, wState]

/-- C6: for every frame of the data sequence, `MRCCreator` emits the file
`path/{i+1:05d}.img` whose content is the fixed 1024-byte MRC header
followed by the raw row-major int16 bytes of the vertically flipped,
distortion-corrected image; the distortion correction receives the single
global beam center. -/
theorem mrc_output_spec (asc : Img → ℚ × ℚ → ℚ → ℚ → Img) (s : ImgConversion)
    (path : String) (i : Nat) (img : Img) (h : s.data[i]? = some img) :
    mrc_header.length = 1024 ∧
    (MRCCreator asc s path)[i]? = some
      (pathJoin path (pad5 (i + 1) ++ ".img"),
       mrc_header ++ imgBytes (fixDistortion asc
         ((img.map (fun r => r.map int16Cast)).reverse) s.beam_center)) := by
  constructor
  · rfl
  · simp [MRCCreator, List.getElem?_map, List.getElem?_enum, h]

/-- Witness for C6 at the first frame of the concrete state `wState`. -/
theorem mrc_output_spec_witness :
    mrc_header.length = 1024 ∧
    (MRCCreator (fun im _ _ _ => im) wState "p")[0]? = some
      (pathJoin "p" (pad5 (0 + 1) ++ ".img"),
       mrc_header ++ imgBytes (fixDistortion (fun im _ _ _ => im)
         ((([[2]] : Img).map (fun r => r.map int16Cast)).reverse)
         wState.beam_center)) :=
  mrc_output_spec (fun im _ _ _ => im) wState "p" 0 [[2]] rfl

/-- A camera-length table mapping camera length 25 to the sentinel pixel
size 0. -/
def wPxd0 : List (ℚ × ℚ) := [(25, 0)]

/-- A camera-length table mapping camera length 25 to the sentinel pixel
size 1. -/
def wPxd1 : List (ℚ × ℚ) := [(25, 1)]

/-- The state constructed with pixel size 1:
distance is `483.89 * 0.00412 / 1 = 1.9936268`. -/
def wStateOne : ImgConversion :=
  { wState with pixelsize := 1, distance := 1.9936268 }

/-- Evaluation of the modelled constructor with pixel size 1. -/
lemma wInitOne_eq :
    ImgConversion.init wFfc wFbc [] wPxd1 wBuf 25 0.5 10 11.5 7 (20, 0.8) =
      .ok (wStateOne, []) := by
  simp [ImgConversion.init, drainLoop_eq, wBuf, wPxd1, wFfc, wFbc, wState,
    wStateOne, get_average_beam_center, List.lookup]
  norm_num

/-- C8 counterexample: a camera length mapping to pixel size exactly 1.0
does not raise any error — construction succeeds and silently produces
distance 1.9936268, contradicting the claim that 1.0 is rejected as a
sentinel. -/
theorem pixelsize_one_not_rejected :
    ImgConversion.init wFfc wFbc [] wPxd1 wBuf 25 0.5 10 11.5 7 (20, 0.8) =
      .ok (wStateOne, []) :=
  wInitOne_eq

/-- C8 (amended): the derived distance equals `483.89 * 0.00412 / pixel_size`
and is strictly positive for every positive pixel size in the lookup table;
a pixel size of exactly 0.0 raises `ZeroDivisionError` at construction; a
pixel size of exactly 1.0 receives no sentinel treatment (see the
counterexample). -/
theorem distance_formula_and_zero_division (ffc : Img → Img → Img)
    (fbc : Img → ℚ × ℚ) (ff : Img) (pxd : List (ℚ × ℚ))
    (buffer : List (Img × Hdr)) (cl os sa ea ra : ℚ) (rr : ℚ × ℚ)
    (s : ImgConversion) (rem : List (Img × Hdr)) (p : ℚ)
    (hl : pxd.lookup cl = some p) :
    (p = 0 →
      ImgConversion.init ffc fbc ff pxd buffer cl os sa ea ra rr =
        .error .zeroDivisionError) ∧
    (ImgConversion.init ffc fbc ff pxd buffer cl os sa ea ra rr = .ok (s, rem) →
      s.distance = 483.89 * 0.00412 / p ∧ (0 < p → 0 < s.distance)) := by
  constructor
  · intro hp
    subst hp
    simp [ImgConversion.init, drainLoop_eq, hl]
  · intro h
    obtain ⟨-, -, hl', -, -, -, -, hdist, -⟩ :=
      init_ok_elim ffc fbc ff pxd buffer cl os sa ea ra rr s rem h
    have hp : s.pixelsize = p := by
      rw [hl] at hl'
      exact (Option.some.inj hl').symm
    refine ⟨by rw [hdist, hp], fun hpos => ?_⟩
    rw [hdist, hp]
    exact div_pos (by norm_num) hpos

/-- Witness for C8 (amended) at pixel sizes 0 and 1. -/
theorem distance_formula_and_zero_division_witness :
    (ImgConversion.init wFfc wFbc [] wPxd0 wBuf 25 0.5 10 11.5 7 (20, 0.8) =
        .error .zeroDivisionError) ∧
    wStateOne.distance = 483.89 * 0.00412 / 1 ∧ 0 < wStateOne.distance := by
  have A := distance_formula_and_zero_division wFfc wFbc [] wPxd0 wBuf
    25 0.5 10 11.5 7 (20, 0.8) wState [] 0 (by simp [wPxd0, List.lookup])
  have B := distance_formula_and_zero_division wFfc wFbc [] wPxd1 wBuf
    25 0.5 10 11.5 7 (20, 0.8) wStateOne [] 1 (by simp [wPxd1, List.lookup])
  exact ⟨A.1 rfl, (B.2 wInitOne_eq).1, (B.2 wInitOne_eq).2 (by norm_num)⟩

/-- The files a fully successful TIFF loop writes for the frame list `l`
starting at loop counter `i`: frame j gets the 1-based 5-digit filename
`path/{i+j+1:05d}.tiff` with its image and original header. -/
def tiffFiles (path : String) : Nat → List (Img × Hdr) → List (String × Img × Hdr)
  | _, [] => []
  | i, (img, h) :: rest =>
      (pathJoin path (pad5 (i + 1) ++ ".tiff"), img, h) :: tiffFiles path (i + 1) rest

lemma writeTiffLoop_spec (ok : String → Bool) (path : String) :
    ∀ (l : List (Img × Hdr)) (i : Nat) (files : List (String × Img × Hdr))
      (e : PyErr),
    writeTiffLoop ok path i l = (files, some e) →
    e = .ioError (pathJoin path (pad5 (i + files.length + 1) ++ ".tiff")) ∧
    files = tiffFiles path i (l.take files.length) := by
  intro l
  induction l with
  | nil =>
      intro i files e h
      simp [writeTiffLoop] at h
  | cons fr rest ih =>
      intro i files e h
      obtain ⟨img, hd⟩ := fr
      by_cases hok : ok (pathJoin path (pad5 (i + 1) ++ ".tiff"))
      · rcases hrec : writeTiffLoop ok path (i + 1) rest with ⟨files2, err⟩
        simp only [writeTiffLoop, write_tiff, if_pos hok, hrec,
          Prod.mk.injEq] at h
        obtain ⟨hf, he⟩ := h
        subst hf
        obtain ⟨he2, hfiles⟩ := ih (i + 1) files2 e (by rw [hrec, he])
        constructor
        · rw [List.length_cons]
          have harith : i + (files2.length + 1) + 1 = i + 1 + files2.length + 1 := by
            omega
          rw [harith]
          exact he2
        · rw [List.length_cons, List.take_succ_cons, tiffFiles, ← hfiles]
      · simp only [writeTiffLoop, write_tiff, if_neg hok, Prod.mk.injEq] at h
        obtain ⟨hf, he⟩ := h
        subst hf
        obtain rfl : PyErr.ioError (pathJoin path (pad5 (i + 1) ++ ".tiff")) = e :=
          Option.some.inj he
        simp [tiffFiles]

/-- C9: when a `write_tiff` call fails, `writeTiff`'s failure carries the
target path of the exact frame being written (whose 1-based 5-digit index
is frames-written + 1), and the files already written are precisely the
earlier frames with their images and original headers intact. -/
theorem writeTiff_error_identifies_frame (ok : String → Bool)
    (s : ImgConversion) (path : String)
    (files : List (String × Img × Hdr)) (e : PyErr)
    (h : writeTiff ok s path = (files, some e)) :
    e = .ioError (pathJoin path (pad5 (files.length + 1) ++ ".tiff")) ∧
    files = tiffFiles path 0 ((s.data.zip s.headers).take files.length) := by
  have h0 := writeTiffLoop_spec ok path (s.data.zip s.headers) 0 files e h
  simpa using h0

/-- A write oracle for the C9 witness: only the first frame's file writes
successfully. -/
def wOk : String → Bool := fun fn => fn == pathJoin "p" (pad5 1 ++ ".tiff")

/-- The files the C9 witness run writes before failing. -/
def wFiles : List (String × Img × Hdr) :=
  [(pathJoin "p" (pad5 1 ++ ".tiff"), [[2]], [("k", "v")])]

/-- Witness for C9: on the two-frame state `wState` the failure at the
second frame carries the path `p/00002.tiff`, and the first frame's file is
intact. -/
theorem writeTiff_error_identifies_frame_witness :
    (PyErr.ioError (pathJoin "p" (pad5 2 ++ ".tiff")) : PyErr) =
      .ioError (pathJoin "p" (pad5 (wFiles.length + 1) ++ ".tiff")) ∧
    wFiles = tiffFiles "p" 0 ((wState.data.zip wState.headers).take wFiles.length) :=
  writeTiff_error_identifies_frame wOk wState "p" wFiles
    (.ioError (pathJoin "p" (pad5 2 ++ ".tiff"))) (by rfl)

/-- C10: the `rotation_angle` stored at construction is dead state for the
encoders — two constructions identical except for the constructor's
`rotation_angle` argument yield identical `1.ed3d` lines and identical
`XDS.INP` substitution values whenever the encoders are invoked with equal
arguments (the `ROTATIONAXIS` line and the rotation-axis vector come from
the encoder's own `rotation_angle` argument only). -/
theorem encoders_ignore_stored_rotation_angle (ffc : Img → Img → Img)
    (fbc : Img → ℚ × ℚ) (ff : Img) (pxd : List (ℚ × ℚ))
    (buffer : List (Img × Hdr)) (cl os sa ea ra1 ra2 : ℚ) (rr : ℚ × ℚ)
    (s1 s2 : ImgConversion) (rem1 rem2 : List (Img × Hdr))
    (path : String) (rc : ℚ) (cosQ : ℚ → ℚ)
    (h1 : ImgConversion.init ffc fbc ff pxd buffer cl os sa ea ra1 rr = .ok (s1, rem1))
    (h2 : ImgConversion.init ffc fbc ff pxd buffer cl os sa ea ra2 rr = .ok (s2, rem2)) :
    ED3DCreator s1 path rc = ED3DCreator s2 path rc ∧
    XDSINPCreator cosQ s1 rc = XDSINPCreator cosQ s2 rc := by
  obtain ⟨hh1, hd1, hl1, -, -, hw1, hbc1, hdist1, hos1, hsa1, -, -, hdx1, hdn1, -⟩ :=
    init_ok_elim ffc fbc ff pxd buffer cl os sa ea ra1 rr s1 rem1 h1
  obtain ⟨hh2, hd2, hl2, -, -, hw2, hbc2, hdist2, hos2, hsa2, -, -, hdx2, hdn2, -⟩ :=
    init_ok_elim ffc fbc ff pxd buffer cl os sa ea ra2 rr s2 rem2 h2
  have hpx : s1.pixelsize = s2.pixelsize := by
    rw [hl1] at hl2
    exact Option.some.inj hl2
  constructor
  · simp only [ED3DCreator, hd1, hd2, hw1, hw2, hpx, hos1, hos2, hsa1, hsa2]
  · simp only [XDSINPCreator, hd1, hd2, hw1, hw2, hbc1, hbc2, hdist1, hdist2,
      hpx, hos1, hos2, hsa1, hsa2, hdx1, hdx2, hdn1, hdn2]

/-- The witness state constructed with rotation angle 0 instead of 7. -/
def wStateRa0 : ImgConversion := { wState with rotation_angle := 0 }

/-- Evaluation of the modelled constructor with rotation angle 0. -/
lemma wInitRa0_eq :
    ImgConversion.init wFfc wFbc [] wPxd wBuf 25 0.5 10 11.5 0 (20, 0.8) =
      .ok (wStateRa0, []) := by
  simp [ImgConversion.init, drainLoop_eq, wBuf, wPxd, wFfc, wFbc, wState,
    wStateRa0, get_average_beam_center, List.lookup]
  norm_num

/-- Witness for C10: constructions with rotation angles 7 and 0 give equal
encoder outputs for equal call arguments. -/
theorem encoders_ignore_stored_rotation_angle_witness :
    ED3DCreator wState "p" 3 = ED3DCreator wStateRa0 "p" 3 ∧
    XDSINPCreator (fun q => q) wState 3 = XDSINPCreator (fun q => q) wStateRa0 3 :=
  encoders_ignore_stored_rotation_angle wFfc wFbc [] wPxd wBuf 25 0.5 10 11.5 7 0
    (20, 0.8) wState wStateRa0 [] [] "p" 3 (fun q => q) wInit_eq wInitRa0_eq
